import Mathlib

/-!
Verification development for the sandbox lifecycle management core of the
deer-flow repository: the `AioSandboxProvider` orchestrator
(`src/backend/src/community/aio_sandbox/aio_sandbox_provider.py`), the
file-based state store (`file_state_store.py`), the remote backend
(`remote_backend.py`) and the cluster-side provisioner service
(`src/docker/provisioner/app.py`).

The Python code is shallowly embedded: provider state (the in-process dicts
plus the state-store contents) is passed explicitly, external effects
(backend HTTP calls, state-store file writes) are recorded in event lists,
and environment behaviour (backend responses, readiness polling, clock,
randomness) is supplied as explicit parameters.
-/

set_option maxRecDepth 100000

namespace DeerFlow

/-! ## SHA-256 (FIPS 180-4) over byte lists

Embeds `hashlib.sha256(...).hexdigest()` as used by
`AioSandboxProvider._deterministic_sandbox_id`.  Words are `Nat` reduced
mod `2 ^ 32` so every operation evaluates in the kernel. -/

namespace Sha256

def w32 (n : Nat) : Nat := n % 4294967296

def rotr (n x : Nat) : Nat := w32 ((x >>> n) ||| (x <<< (32 - n)))

def ch (x y z : Nat) : Nat := (x &&& y) ^^^ ((x ^^^ 4294967295) &&& z)

def maj (x y z : Nat) : Nat := (x &&& y) ^^^ (x &&& z) ^^^ (y &&& z)

def bigSigma0 (x : Nat) : Nat := rotr 2 x ^^^ rotr 13 x ^^^ rotr 22 x

def bigSigma1 (x : Nat) : Nat := rotr 6 x ^^^ rotr 11 x ^^^ rotr 25 x

def smallSigma0 (x : Nat) : Nat := rotr 7 x ^^^ rotr 18 x ^^^ (x >>> 3)

def smallSigma1 (x : Nat) : Nat := rotr 17 x ^^^ rotr 19 x ^^^ (x >>> 10)

/-- The 64 round constants of FIPS 180-4 §4.2.2 (decimal). -/
def K : List Nat :=
  [1116352408, 1899447441, 3049323471, 3921009573, 961987163,
   1508970993, 2453635748, 2870763221, 3624381080, 310598401,
   607225278, 1426881987, 1925078388, 2162078206, 2614888103,
   3248222580, 3835390401, 4022224774, 264347078, 604807628,
   770255983, 1249150122, 1555081692, 1996064986, 2554220882,
   2821834349, 2952996808, 3210313671, 3336571891, 3584528711,
   113926993, 338241895, 666307205, 773529912, 1294757372,
   1396182291, 1695183700, 1986661051, 2177026350, 2456956037,
   2730485921, 2820302411, 3259730800, 3345764771, 3516065817,
   3600352804, 4094571909, 275423344, 430227734, 506948616,
   659060556, 883997877, 958139571, 1322822218, 1537002063,
   1747873779, 1955562222, 2024104815, 2227730452, 2361852424,
   2428436474, 2756734187, 3204031479, 3329325298]

/-- The initial hash value of FIPS 180-4 §5.3.3 (decimal). -/
def H0 : List Nat :=
  [1779033703, 3144134277, 1013904242, 2773480762,
   1359893119, 2600822924, 528734635, 1541459225]

/-- One extension step of the message schedule; `acc` holds the schedule so
far in reverse order (most recent word first). -/
def extendStep (acc : List Nat) : List Nat :=
  let w2 := acc.getD 1 0
  let w7 := acc.getD 6 0
  let w15 := acc.getD 14 0
  let w16 := acc.getD 15 0
  w32 (w16 + smallSigma0 w15 + w7 + smallSigma1 w2) :: acc

def extendN : Nat → List Nat → List Nat
  | 0, acc => acc
  | n + 1, acc => extendN n (extendStep acc)

/-- The 64-word message schedule from a 16-word block. -/
def schedule (block : List Nat) : List Nat := (extendN 48 block.reverse).reverse

/-- Working variables (a .. h) of the compression function. -/
structure WorkVars where
  a : Nat
  b : Nat
  c : Nat
  d : Nat
  e : Nat
  f : Nat
  g : Nat
  h : Nat

def compressStep (st : WorkVars) (kw : Nat × Nat) : WorkVars :=
  let t1 := w32 (st.h + bigSigma1 st.e + ch st.e st.f st.g + kw.1 + kw.2)
  let t2 := w32 (bigSigma0 st.a + maj st.a st.b st.c)
  { a := w32 (t1 + t2), b := st.a, c := st.b, d := st.c,
    e := w32 (st.d + t1), f := st.e, g := st.f, h := st.g }

def compressBlock (hs : List Nat) (block : List Nat) : List Nat :=
  let ws := schedule block
  let st0 : WorkVars :=
    { a := hs.getD 0 0, b := hs.getD 1 0, c := hs.getD 2 0, d := hs.getD 3 0,
      e := hs.getD 4 0, f := hs.getD 5 0, g := hs.getD 6 0, h := hs.getD 7 0 }
  let st := (K.zip ws).foldl (fun s kw => compressStep s (kw.1, kw.2)) st0
  [w32 (hs.getD 0 0 + st.a), w32 (hs.getD 1 0 + st.b), w32 (hs.getD 2 0 + st.c),
   w32 (hs.getD 3 0 + st.d), w32 (hs.getD 4 0 + st.e), w32 (hs.getD 5 0 + st.f),
   w32 (hs.getD 6 0 + st.g), w32 (hs.getD 7 0 + st.h)]

/-- Big-endian 4-byte groups to 32-bit words. -/
def toWordsBE : List Nat → List Nat
  | b0 :: b1 :: b2 :: b3 :: rest =>
      (b0 * 16777216 + b1 * 65536 + b2 * 256 + b3) :: toWordsBE rest
  | _ => []

/-- Split a word list into 16-word blocks (fuelled for kernel reduction). -/
def split16F : Nat → List Nat → List (List Nat)
  | 0, _ => []
  | _, [] => []
  | fuel + 1, w :: rest => (w :: rest.take 15) :: split16F fuel (rest.drop 15)

/-- Big-endian 8-byte encoding of the bit length. -/
def lenBytes (bitLen : Nat) : List Nat :=
  [(bitLen >>> 56) % 256, (bitLen >>> 48) % 256, (bitLen >>> 40) % 256, (bitLen >>> 32) % 256,
   (bitLen >>> 24) % 256, (bitLen >>> 16) % 256, (bitLen >>> 8) % 256, bitLen % 256]

/-- SHA-256 padding: append 0x80, zero bytes to 56 mod 64, then bit length. -/
def padMessage (msg : List Nat) : List Nat :=
  let len := msg.length
  let padZeros := (64 + 56 - (len + 1) % 64) % 64
  msg ++ [0x80] ++ List.replicate padZeros 0 ++ lenBytes (len * 8)

def digestWords (msg : List Nat) : List Nat :=
  let words := toWordsBE (padMessage msg)
  (split16F words.length words).foldl compressBlock H0

def hexDigit (n : Nat) : Char :=
  if n < 10 then Char.ofNat (48 + n) else Char.ofNat (87 + n)

def wordHex (w : Nat) : List Char :=
  [hexDigit ((w >>> 28) % 16), hexDigit ((w >>> 24) % 16), hexDigit ((w >>> 20) % 16),
   hexDigit ((w >>> 16) % 16), hexDigit ((w >>> 12) % 16), hexDigit ((w >>> 8) % 16),
   hexDigit ((w >>> 4) % 16), hexDigit (w % 16)]

/-- The lowercase hex digest, as `hashlib.sha256(bytes).hexdigest()`. -/
def hexdigest (msg : List Nat) : String :=
  String.mk ((digestWords msg).flatMap wordHex)

end Sha256

/-- UTF-8 encoding of one scalar value (embeds Python `str.encode()`
per code point). -/
def utf8Char (c : Char) : List Nat :=
  let n := c.toNat
  if n < 128 then [n]
  else if n < 2048 then [192 + n / 64, 128 + n % 64]
  else if n < 65536 then [224 + n / 4096, 128 + (n / 64) % 64, 128 + n % 64]
  else [240 + n / 262144, 128 + (n / 4096) % 64, 128 + (n / 64) % 64, 128 + n % 64]

/-- UTF-8 encoding of a string (embeds Python `thread_id.encode()`). -/
def utf8Encode (s : String) : List Nat := s.data.flatMap utf8Char

/-- `AioSandboxProvider._deterministic_sandbox_id`:
`hashlib.sha256(thread_id.encode()).hexdigest()[:8]`. -/
def deterministic_sandbox_id (thread_id : String) : String :=
  (Sha256.hexdigest (utf8Encode thread_id)).take 8

/-! ## Data model

`SandboxInfo` and the `AioSandbox` handle come from `sandbox_info.py` /
`aio_sandbox.py`; the provider only reads their `sandbox_id` / `sandbox_url`
(resp. `id` / `base_url`) fields. -/

structure SandboxInfo where
  sandbox_id : String
  sandbox_url : String
deriving DecidableEq, Repr

structure AioSandbox where
  id : String
  base_url : String
deriving DecidableEq, Repr

/-! ### Association lists embedding Python dicts -/

def alookup {α : Type} (l : List (String × α)) (k : String) : Option α :=
  (l.find? (fun p => p.1 == k)).map (fun p => p.2)

def ainsert {α : Type} (l : List (String × α)) (k : String) (v : α) :
    List (String × α) :=
  (k, v) :: l.filter (fun p => p.1 != k)

def aerase {α : Type} (l : List (String × α)) (k : String) : List (String × α) :=
  l.filter (fun p => p.1 != k)

/-! ## Provider state and environment

The five dicts of `AioSandboxProvider.__init__` plus the state-store
contents (`FileSandboxStateStore`: one record per thread_id).  Wall-clock
`time.time()` is an explicit `now` parameter, `str(uuid.uuid4())` an
explicit `uuid` parameter. -/

structure PState where
  sandboxes : List (String × AioSandbox)
  sandbox_infos : List (String × SandboxInfo)
  thread_sandboxes : List (String × String)
  last_activity : List (String × Nat)
  persisted : List (String × SandboxInfo)
deriving DecidableEq, Repr

def emptyState : PState := ⟨[], [], [], [], []⟩

/-- Backend behaviour (`SandboxBackend.create/discover` responses and the
outcome of `wait_for_sandbox_ready` polling against a given URL). -/
structure Backend where
  create : Option String → String → SandboxInfo
  discover : String → Option SandboxInfo
  ready : String → Bool

/-- Externally observable effects of provider operations. -/
inductive Ev where
  | createB (thread_id : Option String) (sandbox_id : String)
  | destroyB (info : SandboxInfo)
  | discoverB (sandbox_id : String)
  | saveS (thread_id : String) (info : SandboxInfo)
  | removeS (thread_id : String)
deriving DecidableEq, Repr

def Ev.isCreate : Ev → Bool
  | .createB _ _ => true
  | _ => false

def createCount (evs : List Ev) : Nat := (evs.filter Ev.isCreate).length

/-- Python truthiness of `thread_id: str | None` (`if thread_id:`). -/
def truthy : Option String → Bool
  | some t => t != ""
  | none => false

/-! ## Provider operations (from `aio_sandbox_provider.py`) -/

/-- `AioSandboxProvider._try_recover`. -/
def try_recover (b : Backend) (now : Nat) (s : PState) (thread_id : String) :
    Option String × PState × List Ev :=
  match alookup s.persisted thread_id with
  | none => (none, s, [])
  | some info =>
    match b.discover info.sandbox_id with
    | none =>
        (none, { s with persisted := aerase s.persisted thread_id },
         [Ev.discoverB info.sandbox_id, Ev.removeS thread_id])
    | some d =>
        let s1 := { s with
          sandboxes := ainsert s.sandboxes d.sandbox_id ⟨d.sandbox_id, d.sandbox_url⟩
          sandbox_infos := ainsert s.sandbox_infos d.sandbox_id d
          last_activity := ainsert s.last_activity d.sandbox_id now
          thread_sandboxes := ainsert s.thread_sandboxes thread_id d.sandbox_id }
        if d.sandbox_url = info.sandbox_url then
          (some d.sandbox_id, s1, [Ev.discoverB info.sandbox_id])
        else
          (some d.sandbox_id,
           { s1 with persisted := ainsert s1.persisted thread_id d },
           [Ev.discoverB info.sandbox_id, Ev.saveS thread_id d])

/-- `AioSandboxProvider._create_sandbox`. -/
def create_sandbox (b : Backend) (now : Nat) (s : PState)
    (thread_id : Option String) (sandbox_id : String) :
    Except String String × PState × List Ev :=
  let info := b.create thread_id sandbox_id
  if b.ready info.sandbox_url then
    let s1 := { s with
      sandboxes := ainsert s.sandboxes sandbox_id ⟨sandbox_id, info.sandbox_url⟩
      sandbox_infos := ainsert s.sandbox_infos sandbox_id info
      last_activity := ainsert s.last_activity sandbox_id now }
    let s2 :=
      if truthy thread_id then
        { s1 with
          thread_sandboxes := ainsert s1.thread_sandboxes (thread_id.getD "") sandbox_id
          persisted := ainsert s1.persisted (thread_id.getD "") info }
      else s1
    let evs := Ev.createB thread_id sandbox_id ::
      (if truthy thread_id then [Ev.saveS (thread_id.getD "") info] else [])
    (.ok sandbox_id, s2, evs)
  else
    (.error ("Sandbox " ++ sandbox_id ++
       " failed to become ready within timeout at " ++ info.sandbox_url),
     s, [Ev.createB thread_id sandbox_id, Ev.destroyB info])

/-- Layers 2 and 3 of `_acquire_internal` (after the in-process fast path):
candidate-id computation, cross-process recovery, creation. -/
def acquire_body (b : Backend) (now : Nat) (uuid : String) (s : PState)
    (thread_id : Option String) : Except String String × PState × List Ev :=
  let sandbox_id :=
    if truthy thread_id then deterministic_sandbox_id (thread_id.getD "")
    else uuid.take 8
  if truthy thread_id then
    match try_recover b now s (thread_id.getD "") with
    | (some rid, s1, ev1) => (.ok rid, s1, ev1)
    | (none, s1, ev1) =>
        match create_sandbox b now s1 thread_id sandbox_id with
        | (r, s2, ev2) => (r, s2, ev1 ++ ev2)
  else
    create_sandbox b now s thread_id sandbox_id

/-- `AioSandboxProvider._acquire_internal` (and `acquire`, whose only
addition is per-thread locking, which a sequential embedding needs not
model). -/
def acquire (b : Backend) (now : Nat) (uuid : String) (s : PState)
    (thread_id : Option String) : Except String String × PState × List Ev :=
  if truthy thread_id then
    match alookup s.thread_sandboxes (thread_id.getD "") with
    | some existing =>
        if (alookup s.sandboxes existing).isSome then
          (.ok existing,
           { s with last_activity := ainsert s.last_activity existing now }, [])
        else
          acquire_body b now uuid
            { s with thread_sandboxes := aerase s.thread_sandboxes (thread_id.getD "") }
            thread_id
    | none => acquire_body b now uuid s thread_id
  else acquire_body b now uuid s thread_id

/-- `AioSandboxProvider.get`. -/
def get (now : Nat) (s : PState) (sandbox_id : String) :
    Option AioSandbox × PState :=
  match alookup s.sandboxes sandbox_id with
  | none => (none, s)
  | some sb =>
      (some sb, { s with last_activity := ainsert s.last_activity sandbox_id now })

/-- `AioSandboxProvider.release`: in-memory cleanup, persisted-state cleanup,
then backend destroy (recorded as an event). -/
def release (s : PState) (sandbox_id : String) : PState × List Ev :=
  let info := alookup s.sandbox_infos sandbox_id
  let tids := (s.thread_sandboxes.filter (fun p => p.2 == sandbox_id)).map (fun p => p.1)
  let s1 := { s with
    sandboxes := aerase s.sandboxes sandbox_id
    sandbox_infos := aerase s.sandbox_infos sandbox_id
    thread_sandboxes := s.thread_sandboxes.filter (fun p => p.2 != sandbox_id)
    last_activity := aerase s.last_activity sandbox_id
    persisted := tids.foldl (fun acc t => aerase acc t) s.persisted }
  (s1, tids.map Ev.removeS ++
    (match info with | some i => [Ev.destroyB i] | none => []))

/-! ## Remote backend destroy (from `remote_backend.py`) -/

/-- Outcome of one HTTP call: a response (status, body) or a raised
`requests.RequestException`. -/
inductive HttpOutcome where
  | resp (status : Nat) (text : String)
  | exn (msg : String)
deriving DecidableEq, Repr

inductive LogLevel where
  | info
  | warning
deriving DecidableEq, Repr

/-- `requests.delete(...)`: a response, or a raised RequestException. -/
def requestsDelete (out : HttpOutcome) : Except String (Nat × String) :=
  match out with
  | .resp st tx => .ok (st, tx)
  | .exn m => .error m

/-- `Response.ok` in requests: status code below 400. -/
def respOk (status : Nat) : Bool := status < 400

/-- `RemoteSandboxBackend._provisioner_destroy`: try the DELETE; log and
swallow both non-ok statuses and request exceptions. -/
def provisioner_destroy (out : HttpOutcome) :
    Except String Unit × List (LogLevel × String) :=
  match requestsDelete out with
  | .ok (st, tx) =>
      if respOk st then (.ok (), [(.info, "Provisioner destroyed sandbox")])
      else
        (.ok (), [(.warning,
          "Provisioner destroy returned " ++ toString st ++ ": " ++ tx)])
  | .error m => (.ok (), [(.warning, "Provisioner destroy failed: " ++ m)])

/-- `release` wired to the remote backend's destroy: bookkeeping first, then
`Backend.destroy` (whose failure outcome is `out`); an error escaping
`provisioner_destroy` would propagate out of `release`. -/
def release_remote (s : PState) (sandbox_id : String) (out : HttpOutcome) :
    Except String (PState × List Ev × List (LogLevel × String)) :=
  let r := release s sandbox_id
  if (alookup s.sandbox_infos sandbox_id).isSome then
    match provisioner_destroy out with
    | (.ok _, logs) => .ok (r.1, r.2, logs)
    | (.error e, _) => .error e
  else .ok (r.1, r.2, [])

/-! ## Idle-timeout configuration (from `_load_config` / `__init__`) -/

def DEFAULT_IDLE_TIMEOUT : Int := 600

/-- Python `x or d` on `Optional[int]`: falsy values (`None` and `0`) fall
back to `d`. -/
def pyOrInt (x : Option Int) (d : Int) : Int :=
  match x with
  | none => d
  | some v => if v = 0 then d else v

/-- The `"idle_timeout"` entry computed by `_load_config`:
`getattr(sandbox_config, "idle_timeout", None) or DEFAULT_IDLE_TIMEOUT`. -/
def load_config_idle_timeout (configured : Option Int) : Int :=
  pyOrInt configured DEFAULT_IDLE_TIMEOUT

/-- `__init__`: `if self._config.get("idle_timeout", DEFAULT) > 0:
self._start_idle_checker()`. -/
def idle_checker_started (configured : Option Int) : Bool :=
  decide (0 < load_config_idle_timeout configured)

/-! ## File state store load (from `file_state_store.py`) -/

/-- The Python exception classes relevant to `FileSandboxStateStore.load`;
`typeError` stands for the exception classes its `except` clause does not
catch. -/
inductive PyExc where
  | osError
  | jsonDecodeError
  | keyError
  | typeError
deriving DecidableEq, Repr

/-- A JSON value, the result type of `json.loads`. -/
inductive JValue where
  | jnull
  | jbool (b : Bool)
  | jnum (n : Int)
  | jstr (s : String)
  | jarr (elems : List JValue)
  | jobj (fields : List (String × JValue))

/-- The state file as `load` observes it: absent, present but unreadable
(`read_text` raises OSError), or readable with some contents. -/
inductive FileRead where
  | missing
  | unreadable
  | content (s : String)

/-- `state_file.exists()`. -/
def fileExists : FileRead → Bool
  | .missing => false
  | _ => true

/-- `state_file.read_text()`: raises OSError when unreadable. -/
def readText : FileRead → Except PyExc String
  | .missing => .error .osError
  | .unreadable => .error .osError
  | .content s => .ok s

def jlookup (fields : List (String × JValue)) (k : String) : Option JValue :=
  (fields.find? (fun p => p.1 == k)).map (fun p => p.2)

/-- A string-valued JSON field, if present. -/
def asStr : Option JValue → Option String
  | some (.jstr s) => some s
  | _ => none

/-- Modelled from the spec: `SandboxInfo.from_dict` lives in
`sandbox_info.py`, which is not among the provided sources.  The spec fixes
the persisted format as a JSON object `{sandbox_id, sandbox_url}` and
requires loaders to tolerate unknown or missing fields by falling back to
"no usable state", so `from_dict` fails — with an error class the loader
catches (`KeyError`) — whenever the two string fields are not both
present. -/
def SandboxInfo.from_dict (j : JValue) : Except PyExc SandboxInfo :=
  match j with
  | .jobj fields =>
      match asStr (jlookup fields "sandbox_id"),
            asStr (jlookup fields "sandbox_url") with
      | some sid, some url => .ok ⟨sid, url⟩
      | _, _ => .error .keyError
  | _ => .error .keyError

/-- The exception classes caught by `load`'s
`except (OSError, json.JSONDecodeError, KeyError)` clause. -/
def caughtByLoad : PyExc → Bool
  | .osError => true
  | .jsonDecodeError => true
  | .keyError => true
  | .typeError => false

/-- The `try` body of `FileSandboxStateStore.load`: read the file, parse
it as JSON, build a `SandboxInfo`; the first raised exception propagates.
`parse` is the behaviour of `json.loads` on the file's text (it raises
only `JSONDecodeError`, represented by the `Unit` error mapped to that
class). -/
def store_load_body (parse : String → Except Unit JValue) (f : FileRead) :
    Except PyExc SandboxInfo :=
  match readText f with
  | .error e => .error e
  | .ok s =>
    match parse s with
    | .error _ => .error .jsonDecodeError
    | .ok j => SandboxInfo.from_dict j

/-- `FileSandboxStateStore.load`: missing file returns `None`; the `try`
body's result is returned, with the caught exception classes converted to
`None` and any other exception propagating. -/
def store_load (parse : String → Except Unit JValue) (f : FileRead) :
    Except PyExc (Option SandboxInfo) :=
  if fileExists f then
    match store_load_body parse f with
    | .ok info => .ok (some info)
    | .error e => if caughtByLoad e then .ok none else .error e
  else .ok none

/-! ## Provisioner service (from `docker/provisioner/app.py`) -/

/-- One port entry of a Service spec (`name`, K8s-allocated `node_port`,
which is absent until allocation happens). -/
structure SvcPort where
  portName : String
  nodePort : Option Nat
deriving DecidableEq, Repr

structure K8sService where
  ports : List SvcPort
deriving DecidableEq, Repr

/-- Cluster state as the provisioner observes it via the K8s API:
Services by name and Pods by name (value = phase). -/
structure K8sState where
  services : List (String × K8sService)
  pods : List (String × String)
deriving DecidableEq, Repr

def pod_name (sandbox_id : String) : String := "sandbox-" ++ sandbox_id

def svc_name (sandbox_id : String) : String := "sandbox-" ++ sandbox_id ++ "-svc"

/-- `_sandbox_url`: `f"http://{NODE_HOST}:{node_port}"`. -/
def sandbox_url_of (nodeHost : String) (node_port : Nat) : String :=
  "http://" ++ nodeHost ++ ":" ++ toString node_port

/-- The `for port in svc.spec.ports or []` loop body of `_get_node_port`:
returns the first port named `"http"` (its `node_port`, even if unset). -/
def findHttpPort : List SvcPort → Option Nat
  | [] => none
  | p :: rest => if p.portName = "http" then p.nodePort else findHttpPort rest

/-- `_get_node_port`: read the Service, return the `http` port's node port;
an ApiException (Service absent) yields `None`. -/
def get_node_port (k : K8sState) (sandbox_id : String) : Option Nat :=
  match alookup k.services (svc_name sandbox_id) with
  | none => none
  | some svc => findHttpPort svc.ports

/-- `_get_pod_phase`: the Pod's phase, `"Unknown"` for a falsy phase,
`"NotFound"` when reading the Pod raises. -/
def get_pod_phase (k : K8sState) (sandbox_id : String) : String :=
  match alookup k.pods (pod_name sandbox_id) with
  | none => "NotFound"
  | some ph => if ph = "" then "Unknown" else ph

structure SandboxResponse where
  sandbox_id : String
  sandbox_url : String
  status : String
deriving DecidableEq, Repr

/-- K8s API calls the `create_sandbox` endpoint makes. -/
inductive ProvEv where
  | podCreate (name : String)
  | svcCreate (name : String)
  | podDelete (name : String)
deriving DecidableEq, Repr

/-- `POST /api/sandboxes` (`create_sandbox` in `app.py`).  `alloc` is the
node port K8s asynchronously assigns to a newly created Service (`none` if
allocation never happens within the poll window); the poll loop of the
source collapses to reading that final allocation state.  Errors are the
endpoint's `HTTPException (status, detail)`. -/
def create_sandbox_endpoint (nodeHost : String) (alloc : Option Nat)
    (k : K8sState) (sandbox_id thread_id : String) :
    Except (Nat × String) SandboxResponse × K8sState × List ProvEv :=
  -- fast path: Service already has an allocated port (`if existing_port:`)
  match get_node_port k sandbox_id with
  | some p =>
    if p ≠ 0 then
      (.ok ⟨sandbox_id, sandbox_url_of nodeHost p, get_pod_phase k sandbox_id⟩,
       k, [])
    else create_sandbox_slow nodeHost alloc k sandbox_id thread_id
  | none => create_sandbox_slow nodeHost alloc k sandbox_id thread_id
where
  /-- The Pod+Service creation path (409 on either object tolerated), then
  the NodePort read-back poll. -/
  create_sandbox_slow (nodeHost : String) (alloc : Option Nat) (k : K8sState)
      (sandbox_id _thread_id : String) :
      Except (Nat × String) SandboxResponse × K8sState × List ProvEv :=
    let pname := pod_name sandbox_id
    let sname := svc_name sandbox_id
    -- create_namespaced_pod: 409 AlreadyExists is swallowed
    let k1 : K8sState :=
      if (alookup k.pods pname).isSome then k
      else { k with pods := ainsert k.pods pname "Pending" }
    -- create_namespaced_service: 409 swallowed; node port allocated per `alloc`
    let k2 : K8sState :=
      if (alookup k1.services sname).isSome then k1
      else
        { k1 with services := ainsert k1.services sname ⟨[⟨"http", alloc⟩]⟩ }
    let evs := [ProvEv.podCreate pname, ProvEv.svcCreate sname]
    -- read back the auto-allocated NodePort (bounded poll; `if node_port:`)
    match get_node_port k2 sandbox_id with
    | some p =>
      if p ≠ 0 then
        (.ok ⟨sandbox_id, sandbox_url_of nodeHost p, get_pod_phase k2 sandbox_id⟩,
         k2, evs)
      else (.error (500, "NodePort was not allocated in time"), k2, evs)
    | none => (.error (500, "NodePort was not allocated in time"), k2, evs)

/-! ## Derived notions used by the theorems -/

/-- `n` sequential `acquire(thread_id)` calls with no intervening release:
the list of results, the final state, and all emitted backend/state-store
events. -/
def acquireRep (b : Backend) (now : Nat) (uuid : String) (t : String) :
    Nat → PState → List (Except String String) × PState × List Ev
  | 0, s => ([], s, [])
  | n + 1, s =>
    match acquire b now uuid s (some t) with
    | (r, s1, ev) =>
      match acquireRep b now uuid t n s1 with
      | (rs, s2, evs) => (r :: rs, s2, ev ++ evs)

/-- The in-process fast-path condition of `_acquire_internal`: the thread
maps to a sandbox id whose handle is still cached. -/
def cached (s : PState) (t sid : String) : Prop :=
  alookup s.thread_sandboxes t = some sid ∧ (alookup s.sandboxes sid).isSome = true

/-- A backend whose sandboxes are always ready and discoverable (used to
instantiate theorems at concrete inputs). -/
def demoBackend : Backend :=
  { create := fun _ sid => ⟨sid, "http://sb"⟩
    discover := fun sid => some ⟨sid, "http://sb"⟩
    ready := fun _ => true }

/-- A backend whose sandboxes never become ready. -/
def badBackend : Backend :=
  { create := fun _ sid => ⟨sid, "http://dead"⟩
    discover := fun _ => none
    ready := fun _ => false }

/-! ## Association-list lemmas -/

theorem alookup_nil {α : Type} (k : String) :
    alookup ([] : List (String × α)) k = none := rfl

theorem alookup_cons {α : Type} (p : String × α) (l : List (String × α)) (k : String) :
    alookup (p :: l) k = if p.1 = k then some p.2 else alookup l k := by
  by_cases h : p.1 = k <;> simp [alookup, List.find?_cons, h]

theorem aerase_cons {α : Type} (p : String × α) (l : List (String × α)) (k : String) :
    aerase (p :: l) k = if p.1 = k then aerase l k else p :: aerase l k := by
  by_cases h : p.1 = k <;> simp [aerase, List.filter_cons, h]

theorem alookup_ainsert_self {α : Type} (l : List (String × α)) (k : String) (v : α) :
    alookup (ainsert l k v) k = some v := by
  simp [alookup, ainsert]

theorem alookup_aerase_self {α : Type} (l : List (String × α)) (k : String) :
    alookup (aerase l k) k = none := by
  induction l with
  | nil => rfl
  | cons p rest ih =>
    rw [aerase_cons]
    by_cases hk : p.1 = k
    · rw [if_pos hk]; exact ih
    · rw [if_neg hk, alookup_cons, if_neg hk]; exact ih

theorem alookup_aerase_ne {α : Type} {t k : String} (l : List (String × α)) (h : t ≠ k) :
    alookup (aerase l k) t = alookup l t := by
  induction l with
  | nil => rfl
  | cons p rest ih =>
    rw [aerase_cons]
    by_cases hk : p.1 = k
    · have hpt : ¬ p.1 = t := fun e => h (by rw [← e, hk])
      rw [if_pos hk, ih, alookup_cons, if_neg hpt]
    · rw [if_neg hk, alookup_cons, alookup_cons, ih]

theorem alookup_eq_some_mem {α : Type} {l : List (String × α)} {k : String} {v : α}
    (h : alookup l k = some v) : (k, v) ∈ l := by
  induction l with
  | nil => simp [alookup] at h
  | cons p rest ih =>
    rw [alookup_cons] at h
    by_cases hk : p.1 = k
    · rw [if_pos hk] at h
      have : p = (k, v) := by
        cases p
        simp only at hk
        simp only [Option.some.injEq] at h
        simp [hk, h]
      rw [← this]
      exact List.mem_cons_self p rest
    · rw [if_neg hk] at h
      exact List.mem_cons_of_mem p (ih h)

theorem alookup_filter_ne_val {α : Type} [BEq α] [LawfulBEq α]
    (l : List (String × α)) (k : String) (v : α) :
    alookup (l.filter (fun p => p.2 != v)) k ≠ some v := by
  intro h
  have hm := alookup_eq_some_mem h
  have hq := List.of_mem_filter hm
  simp at hq

theorem alookup_foldl_aerase {α : Type} (ts : List String) (l : List (String × α)) (t : String) :
    alookup (ts.foldl (fun acc k => aerase acc k) l) t =
      if t ∈ ts then none else alookup l t := by
  induction ts generalizing l with
  | nil => simp
  | cons k ts ih =>
    simp only [List.foldl_cons]
    rw [ih]
    by_cases hm : t ∈ ts
    · simp [hm]
    · by_cases hk : t = k
      · subst hk
        simp [hm, alookup_aerase_self]
      · simp [hm, hk, alookup_aerase_ne _ hk, List.mem_cons]

theorem aerase_aerase {α : Type} (l : List (String × α)) (k : String) :
    aerase (aerase l k) k = aerase l k := by
  simp only [aerase, List.filter_filter]
  simp

theorem filter_beq_of_filter_bne {α : Type} [BEq α] (l : List (String × α)) (v : α) :
    (l.filter (fun p => p.2 != v)).filter (fun p => p.2 == v) = [] := by
  rw [List.filter_filter]
  simp [bne]

theorem filter_bne_idem {α : Type} [BEq α] (l : List (String × α)) (v : α) :
    (l.filter (fun p => p.2 != v)).filter (fun p => p.2 != v) =
      l.filter (fun p => p.2 != v) := by
  rw [List.filter_filter]
  simp

theorem mem_tids_of_alookup {l : List (String × String)} {t v : String}
    (h : alookup l t = some v) :
    t ∈ (l.filter (fun p => p.2 == v)).map (fun p => p.1) := by
  have hm := alookup_eq_some_mem h
  exact List.mem_map.mpr ⟨(t, v), List.mem_filter.mpr ⟨hm, by simp⟩, rfl⟩

/-- FIPS 180-4 test vector: SHA-256 of the empty message. -/
theorem sha256_empty_vector :
    Sha256.hexdigest [] =
      "e3b0c44298fc1c149afbf4c8996fb92427ae41e4649b934ca495991b7852b855" := by
  decide

/-- FIPS 180-4 test vector: SHA-256 of `"abc"`. -/
theorem sha256_abc_vector :
    Sha256.hexdigest (utf8Encode "abc") =
      "ba7816bf8f01cfea414140de5dae2223b00361a396177a9cb410ff61f20015ad" := by
  decide

/-! ## Behavioural lemmas about `acquire` -/

/-- Fast path of `_acquire_internal`: a cached mapping answers immediately,
touching only the activity timestamp and emitting no events. -/
theorem acquire_cached (b : Backend) (now : Nat) (uuid : String) (t sid : String)
    (s : PState) (ht : t ≠ "")
    (h1 : alookup s.thread_sandboxes t = some sid)
    (h2 : (alookup s.sandboxes sid).isSome = true) :
    acquire b now uuid s (some t) =
      (.ok sid, { s with last_activity := ainsert s.last_activity sid now }, []) := by
  unfold acquire
  simp [truthy, ht, h1, h2]

/-- Cold path of `_acquire_internal` on a state with no cached mapping and
no persisted record: one backend create, one state-store save. -/
theorem acquire_fresh (b : Backend) (now : Nat) (uuid : String) (t : String)
    (s : PState) (ht : t ≠ "")
    (hts : alookup s.thread_sandboxes t = none)
    (hp : alookup s.persisted t = none)
    (hready : b.ready (b.create (some t) (deterministic_sandbox_id t)).sandbox_url = true) :
    acquire b now uuid s (some t) =
      (.ok (deterministic_sandbox_id t),
       { s with
         sandboxes := ainsert s.sandboxes (deterministic_sandbox_id t)
           ⟨deterministic_sandbox_id t,
            (b.create (some t) (deterministic_sandbox_id t)).sandbox_url⟩
         sandbox_infos := ainsert s.sandbox_infos (deterministic_sandbox_id t)
           (b.create (some t) (deterministic_sandbox_id t))
         last_activity := ainsert s.last_activity (deterministic_sandbox_id t) now
         thread_sandboxes := ainsert s.thread_sandboxes t (deterministic_sandbox_id t)
         persisted := ainsert s.persisted t (b.create (some t) (deterministic_sandbox_id t)) },
       [Ev.createB (some t) (deterministic_sandbox_id t),
        Ev.saveS t (b.create (some t) (deterministic_sandbox_id t))]) := by
  unfold acquire acquire_body try_recover create_sandbox
  simp [truthy, ht, hts, hp, hready]

/-- Once a mapping is cached, every further `acquire` answers from the
cache: same id each time, no events at all. -/
theorem acquireRep_cached (b : Backend) (now : Nat) (uuid : String) (t sid : String)
    (ht : t ≠ "") :
    ∀ (n : Nat) (s : PState), cached s t sid →
      ∃ s', acquireRep b now uuid t n s = (List.replicate n (.ok sid), s', []) ∧
        cached s' t sid := by
  intro n
  induction n with
  | zero => intro s hc; exact ⟨s, rfl, hc⟩
  | succ m ih =>
    intro s hc
    have hfast := acquire_cached b now uuid t sid s ht hc.1 hc.2
    have hc1 : cached { s with last_activity := ainsert s.last_activity sid now } t sid := hc
    obtain ⟨s', hrep, hc'⟩ := ih _ hc1
    refine ⟨s', ?_, hc'⟩
    simp [acquireRep, hfast, hrep, List.replicate_succ]

/-- `_provisioner_destroy` returns normally on every HTTP outcome: the
`except requests.RequestException` clause and the non-ok-status branch both
just log. -/
theorem provisioner_destroy_never_raises (out : HttpOutcome) :
    ∃ logs, provisioner_destroy out = (.ok (), logs) := by
  cases out with
  | resp st tx =>
    by_cases h : respOk st <;> simp [provisioner_destroy, requestsDelete, h]
  | exn m => exact ⟨_, rfl⟩

/-- `SandboxInfo.from_dict` can only fail with `KeyError` (the class the
loader's `except` clause catches). -/
theorem from_dict_error_keyError {j : JValue} {e : PyExc}
    (h : SandboxInfo.from_dict j = .error e) : e = PyExc.keyError := by
  cases j
  case jobj fields =>
    cases h1 : asStr (jlookup fields "sandbox_id") with
    | none =>
      simp [SandboxInfo.from_dict, h1] at h
      exact h.symm
    | some sid =>
      cases h2 : asStr (jlookup fields "sandbox_url") with
      | none =>
        simp [SandboxInfo.from_dict, h1, h2] at h
        exact h.symm
      | some url =>
        simp [SandboxInfo.from_dict, h1, h2] at h
  all_goals
    simp [SandboxInfo.from_dict] at h
    exact h.symm

/-! ## Claims -/

/-- C2: the claim says a configured `idle_timeout <= 0` never starts the
idle-reclamation thread — and the provider's own docstring agrees
("idle_timeout: 600 # Idle timeout in seconds (0 to disable)") — but
`_load_config` computes `getattr(..., "idle_timeout", None) or
DEFAULT_IDLE_TIMEOUT`, so a configured `0` is falsy and coerced to the
default `600`, and `__init__`'s `> 0` check then starts the idle checker.
This theorem evaluates the embedded code at the failing input `0` (thread
started, effective timeout 600) and at `-5` (thread correctly not
started). -/
theorem C2_idle_timeout_zero_starts_checker :
    load_config_idle_timeout (some 0) = 600 ∧
    idle_checker_started (some 0) = true ∧
    idle_checker_started (some (-5)) = false ∧
    idle_checker_started none = true := by
  decide

/-- C7: the provisioner's `create_sandbox` endpoint is idempotent — when
the Service for `sandbox_id` already has an allocated node port, it answers
with the `sandbox_url` derived from that port, makes no K8s create call (no
new Pod, no new Service) and leaves the cluster state unchanged. -/
theorem C7_create_sandbox_idempotent (nodeHost : String) (alloc : Option Nat)
    (k : K8sState) (sandbox_id thread_id : String) (p : Nat)
    (hp : get_node_port k sandbox_id = some p) (hpz : p ≠ 0) :
    create_sandbox_endpoint nodeHost alloc k sandbox_id thread_id =
      (.ok ⟨sandbox_id, sandbox_url_of nodeHost p, get_pod_phase k sandbox_id⟩,
       k, []) := by
  unfold create_sandbox_endpoint
  rw [hp]
  simp [hpz]

/-- C7 witness: a Service already exposing node port 31000 for sandbox
`s1` yields `http://host.docker.internal:31000` without creating
anything. -/
theorem C7_witness :
    create_sandbox_endpoint "host.docker.internal" none
      ⟨[("sandbox-s1-svc", ⟨[⟨"http", some 31000⟩]⟩)], [("sandbox-s1", "Running")]⟩
      "s1" "t1" =
      (.ok ⟨"s1", "http://host.docker.internal:31000", "Running"⟩,
       ⟨[("sandbox-s1-svc", ⟨[⟨"http", some 31000⟩]⟩)], [("sandbox-s1", "Running")]⟩,
       []) := by
  have h := C7_create_sandbox_idempotent "host.docker.internal" none
    ⟨[("sandbox-s1-svc", ⟨[⟨"http", some 31000⟩]⟩)], [("sandbox-s1", "Running")]⟩
    "s1" "t1" 31000 (by decide) (by decide)
  exact h

/-- C10: frame property of `get` — an unknown sandbox_id returns `none`
and leaves the entire provider state unchanged (in particular no
`last_activity` entry is created for it); a known id returns its handle,
and the only state change is `last_activity[sandbox_id] := now`, with
`sandboxes`, `sandbox_infos`, `thread_sandboxes` (and persisted state)
untouched. -/
theorem C10_get_frame (now : Nat) (s : PState) (sandbox_id : String) :
    (alookup s.sandboxes sandbox_id = none → get now s sandbox_id = (none, s)) ∧
    (∀ sb, alookup s.sandboxes sandbox_id = some sb →
      get now s sandbox_id =
        (some sb,
         { s with last_activity := ainsert s.last_activity sandbox_id now })) := by
  constructor
  · intro h; unfold get; rw [h]
  · intro sb h; unfold get; rw [h]

/-- C10 witness: both branches of the frame property at a concrete
one-sandbox state. -/
theorem C10_witness :
    get 7 ⟨[("sb1", ⟨"sb1", "u"⟩)], [], [], [], []⟩ "zz" =
      (none, ⟨[("sb1", ⟨"sb1", "u"⟩)], [], [], [], []⟩) ∧
    get 7 ⟨[("sb1", ⟨"sb1", "u"⟩)], [], [], [], []⟩ "sb1" =
      (some ⟨"sb1", "u"⟩, ⟨[("sb1", ⟨"sb1", "u"⟩)], [], [], [("sb1", 7)], []⟩) := by
  constructor
  · exact (C10_get_frame 7 _ "zz").1 (by decide)
  · exact ((C10_get_frame 7 ⟨[("sb1", ⟨"sb1", "u"⟩)], [], [], [], []⟩ "sb1").2
      ⟨"sb1", "u"⟩ (by decide)).trans (by decide)

/-- C3: during `acquire`, if `Backend.create` returns but the sandbox never
reports ready within the bounded wait, the provider destroys the
just-created resource (`Backend.destroy` on the created info), the call
raises, and the provider state is exactly the pre-call state: no cache
entry, no activity record, no persisted record is left behind. -/
theorem C3_readiness_timeout_compensates (b : Backend) (now : Nat) (uuid : String)
    (t : String) (s : PState) (ht : t ≠ "")
    (hts : alookup s.thread_sandboxes t = none)
    (hp : alookup s.persisted t = none)
    (hready : b.ready (b.create (some t) (deterministic_sandbox_id t)).sandbox_url
      = false) :
    acquire b now uuid s (some t) =
      (.error ("Sandbox " ++ deterministic_sandbox_id t ++
         " failed to become ready within timeout at " ++
         (b.create (some t) (deterministic_sandbox_id t)).sandbox_url),
       s,
       [Ev.createB (some t) (deterministic_sandbox_id t),
        Ev.destroyB (b.create (some t) (deterministic_sandbox_id t))]) := by
  unfold acquire acquire_body try_recover create_sandbox
  simp [truthy, ht, hts, hp, hready]

/-- C3 witness: a never-ready backend makes `acquire` fail with the
compensating destroy and no state change. -/
theorem C3_witness :
    acquire badBackend 0 "u" emptyState (some "abc123") =
      (.error
         "Sandbox 6ca13d52 failed to become ready within timeout at http://dead",
       emptyState,
       [Ev.createB (some "abc123") "6ca13d52",
        Ev.destroyB ⟨"6ca13d52", "http://dead"⟩]) := by
  have h := C3_readiness_timeout_compensates badBackend 0 "u" "abc123" emptyState
    (by decide) rfl rfl rfl
  exact h

/-- C4: when persisted state for thread `t` names a sandbox the backend can
no longer discover, `acquire(t)` removes the stale record
(`StateStore.remove`), does not raise, and falls through to creating a new
sandbox — returning its id and persisting the fresh info. -/
theorem C4_stale_record_evicted (b : Backend) (now : Nat) (uuid : String)
    (t : String) (s : PState) (info : SandboxInfo) (ht : t ≠ "")
    (hts : alookup s.thread_sandboxes t = none)
    (hp : alookup s.persisted t = some info)
    (hd : b.discover info.sandbox_id = none)
    (hready : b.ready (b.create (some t) (deterministic_sandbox_id t)).sandbox_url
      = true) :
    acquire b now uuid s (some t) =
      (.ok (deterministic_sandbox_id t),
       { s with
         sandboxes := ainsert s.sandboxes (deterministic_sandbox_id t)
           ⟨deterministic_sandbox_id t,
            (b.create (some t) (deterministic_sandbox_id t)).sandbox_url⟩
         sandbox_infos := ainsert s.sandbox_infos (deterministic_sandbox_id t)
           (b.create (some t) (deterministic_sandbox_id t))
         last_activity := ainsert s.last_activity (deterministic_sandbox_id t) now
         thread_sandboxes := ainsert s.thread_sandboxes t (deterministic_sandbox_id t)
         persisted := ainsert (aerase s.persisted t) t
           (b.create (some t) (deterministic_sandbox_id t)) },
       [Ev.discoverB info.sandbox_id, Ev.removeS t,
        Ev.createB (some t) (deterministic_sandbox_id t),
        Ev.saveS t (b.create (some t) (deterministic_sandbox_id t))]) ∧
    alookup (ainsert (aerase s.persisted t) t
        (b.create (some t) (deterministic_sandbox_id t))) t =
      some (b.create (some t) (deterministic_sandbox_id t)) := by
  refine ⟨?_, alookup_ainsert_self _ _ _⟩
  unfold acquire acquire_body try_recover create_sandbox
  simp [truthy, ht, hts, hp, hd, hready]

/-- C4 witness: a stale persisted record pointing at an undiscoverable
sandbox is evicted and a fresh sandbox is created and returned. -/
theorem C4_witness :
    acquire
        { create := fun _ sid => ⟨sid, "http://sb"⟩
          discover := fun _ => none
          ready := fun _ => true }
        0 "u" ⟨[], [], [], [], [("abc123", ⟨"deadbeef", "http://old"⟩)]⟩
        (some "abc123") =
      (.ok "6ca13d52",
       ⟨[("6ca13d52", ⟨"6ca13d52", "http://sb"⟩)],
        [("6ca13d52", ⟨"6ca13d52", "http://sb"⟩)],
        [("abc123", "6ca13d52")],
        [("6ca13d52", 0)],
        [("abc123", ⟨"6ca13d52", "http://sb"⟩)]⟩,
       [Ev.discoverB "deadbeef", Ev.removeS "abc123",
        Ev.createB (some "abc123") "6ca13d52",
        Ev.saveS "abc123" ⟨"6ca13d52", "http://sb"⟩]) :=
  (C4_stale_record_evicted
    { create := fun _ sid => ⟨sid, "http://sb"⟩
      discover := fun _ => none
      ready := fun _ => true }
    0 "u" "abc123" ⟨[], [], [], [], [("abc123", ⟨"deadbeef", "http://old"⟩)]⟩
    ⟨"deadbeef", "http://old"⟩ (by decide) rfl (by decide) rfl rfl).1

/-- C9: `FileSandboxStateStore.load` never propagates an error — a missing
file, an unreadable file, invalid JSON, and a JSON document without the
required fields all yield absent (`None`) — and it returns a `SandboxInfo`
exactly when the file's contents parse into one. -/
theorem C9_store_load_total (parse : String → Except Unit JValue) (f : FileRead) :
    (∃ r, store_load parse f = .ok r) ∧
    (∀ info, store_load parse f = .ok (some info) ↔
      ∃ s j, f = .content s ∧ parse s = .ok j ∧
        SandboxInfo.from_dict j = .ok info) := by
  cases f with
  | missing =>
    refine ⟨⟨none, rfl⟩, ?_⟩
    intro info
    constructor
    · intro h; simp [store_load, fileExists] at h
    · rintro ⟨s, j, hf, -, -⟩; cases hf
  | unreadable =>
    refine ⟨⟨none, rfl⟩, ?_⟩
    intro info
    constructor
    · intro h
      simp [store_load, store_load_body, fileExists, readText, caughtByLoad] at h
    · rintro ⟨s, j, hf, -, -⟩; cases hf
  | content s =>
    cases hp : parse s with
    | error e =>
      have hl : store_load parse (FileRead.content s) = .ok none := by
        simp [store_load, store_load_body, fileExists, readText, hp, caughtByLoad]
      refine ⟨⟨none, hl⟩, ?_⟩
      intro info
      constructor
      · intro h
        rw [hl] at h
        simp at h
      · rintro ⟨s', j, hf, hps, -⟩
        cases hf
        rw [hp] at hps
        simp at hps
    | ok j =>
      cases hd : SandboxInfo.from_dict j with
      | error e =>
        have he : e = PyExc.keyError := from_dict_error_keyError hd
        subst he
        have hl : store_load parse (FileRead.content s) = .ok none := by
          simp [store_load, store_load_body, fileExists, readText, hp, hd,
            caughtByLoad]
        refine ⟨⟨none, hl⟩, ?_⟩
        intro info
        constructor
        · intro h
          rw [hl] at h
          simp at h
        · rintro ⟨s', j', hf, hps, hfd⟩
          cases hf
          rw [hp] at hps
          injection hps with hj
          subst hj
          rw [hd] at hfd
          simp at hfd
      | ok info' =>
        have hl : store_load parse (FileRead.content s) = .ok (some info') := by
          simp [store_load, store_load_body, fileExists, readText, hp, hd]
        refine ⟨⟨some info', hl⟩, ?_⟩
        intro info
        constructor
        · intro h
          rw [hl] at h
          injection h with h
          injection h with h
          exact ⟨s, j, rfl, hp, by rw [hd, h]⟩
        · rintro ⟨s', j', hf, hps, hfd⟩
          cases hf
          rw [hp] at hps
          injection hps with hj
          subst hj
          rw [hd] at hfd
          injection hfd with hi
          rw [hl, hi]

/-- C5: `release` is idempotent — a second `release(sandbox_id)` in a row
finds nothing to clean up: it emits no `Backend.destroy` and no
`StateStore.remove` (no events at all), raises nothing, and leaves the
state exactly as the first call left it. -/
theorem C5_release_idempotent (s : PState) (sandbox_id : String) :
    release (release s sandbox_id).1 sandbox_id = ((release s sandbox_id).1, []) := by
  unfold release
  simp [alookup_aerase_self, aerase_aerase, filter_beq_of_filter_bne,
    filter_bne_idem, bne, List.filter_false]

/-- C6: `release` never raises when `Backend.destroy` fails (the remote
backend logs and swallows both request exceptions and non-ok statuses),
and the in-process bookkeeping (`sandboxes`, `sandbox_infos`,
`thread_sandboxes`, `last_activity`) and the persisted thread mappings are
cleared no matter what the destroy outcome is. -/
theorem C6_release_best_effort (s : PState) (sandbox_id : String) (out : HttpOutcome) :
    ∃ s1 evs logs, release_remote s sandbox_id out = .ok (s1, evs, logs) ∧
      alookup s1.sandboxes sandbox_id = none ∧
      alookup s1.sandbox_infos sandbox_id = none ∧
      alookup s1.last_activity sandbox_id = none ∧
      (∀ tid, alookup s1.thread_sandboxes tid ≠ some sandbox_id) ∧
      (∀ tid, alookup s.thread_sandboxes tid = some sandbox_id →
        alookup s1.persisted tid = none) := by
  obtain ⟨logs, hpd⟩ := provisioner_destroy_never_raises out
  have hok : ∃ lg, release_remote s sandbox_id out =
      .ok ((release s sandbox_id).1, (release s sandbox_id).2, lg) := by
    by_cases hi : (alookup s.sandbox_infos sandbox_id).isSome
    · exact ⟨logs, by simp [release_remote, hi, hpd]⟩
    · exact ⟨[], by simp [release_remote, hi]⟩
  obtain ⟨lg, hok⟩ := hok
  refine ⟨(release s sandbox_id).1, (release s sandbox_id).2, lg, hok,
    ?_, ?_, ?_, ?_, ?_⟩
  · exact alookup_aerase_self _ _
  · exact alookup_aerase_self _ _
  · exact alookup_aerase_self _ _
  · intro tid
    exact alookup_filter_ne_val s.thread_sandboxes tid sandbox_id
  · intro tid h
    have hm := mem_tids_of_alookup h
    show alookup
      (((s.thread_sandboxes.filter (fun p => p.2 == sandbox_id)).map
          (fun p => p.1)).foldl (fun acc k => aerase acc k) s.persisted) tid = none
    rw [alookup_foldl_aerase]
    simp [hm]

/-- C6 witness: releasing through a backend whose DELETE raises still
returns normally and clears the persisted mapping. -/
theorem C6_witness :
    ∃ s1 evs logs,
      release_remote
        ⟨[("sb1", ⟨"sb1", "u"⟩)], [("sb1", ⟨"sb1", "u"⟩)], [("t1", "sb1")],
         [("sb1", 5)], [("t1", ⟨"sb1", "u"⟩)]⟩
        "sb1" (.exn "connection refused") = .ok (s1, evs, logs) ∧
      alookup s1.persisted "t1" = none := by
  obtain ⟨s1, evs, logs, h, -, -, -, -, hp⟩ :=
    C6_release_best_effort
      ⟨[("sb1", ⟨"sb1", "u"⟩)], [("sb1", ⟨"sb1", "u"⟩)], [("t1", "sb1")],
       [("sb1", 5)], [("t1", ⟨"sb1", "u"⟩)]⟩
      "sb1" (.exn "connection refused")
  exact ⟨s1, evs, logs, h, hp "t1" (by decide)⟩

/-- C1: for a fixed non-empty thread id, repeated `acquire` calls with no
intervening release all return the same sandbox id with exactly one
`Backend.create` in total — the first call creates, every later call is
answered from the in-process cache; and after a process restart (fresh
in-memory state, persisted record intact) `acquire` recovers via
`Backend.discover` without any `Backend.create`. -/
theorem C1_repeat_acquire_single_create (b : Backend) (now : Nat) (uuid : String)
    (t : String) (ht : t ≠ "") :
    (b.ready (b.create (some t) (deterministic_sandbox_id t)).sandbox_url = true →
      ∀ n : Nat, ∃ sN,
        acquireRep b now uuid t (n + 1) emptyState =
          (List.replicate (n + 1) (.ok (deterministic_sandbox_id t)), sN,
           [Ev.createB (some t) (deterministic_sandbox_id t),
            Ev.saveS t (b.create (some t) (deterministic_sandbox_id t))]) ∧
        createCount
          [Ev.createB (some t) (deterministic_sandbox_id t),
           Ev.saveS t (b.create (some t) (deterministic_sandbox_id t))] = 1) ∧
    (∀ (p : List (String × SandboxInfo)) (info d : SandboxInfo),
      alookup p t = some info → b.discover info.sandbox_id = some d →
      d.sandbox_id = info.sandbox_id →
      ∃ s' ev, acquire b now uuid ⟨[], [], [], [], p⟩ (some t) =
          (.ok info.sandbox_id, s', ev) ∧ createCount ev = 0) := by
  constructor
  · intro hready n
    have hfirst := acquire_fresh b now uuid t emptyState ht rfl rfl hready
    have hc : cached
        { emptyState with
          sandboxes := ainsert emptyState.sandboxes (deterministic_sandbox_id t)
            ⟨deterministic_sandbox_id t,
             (b.create (some t) (deterministic_sandbox_id t)).sandbox_url⟩
          sandbox_infos := ainsert emptyState.sandbox_infos
            (deterministic_sandbox_id t)
            (b.create (some t) (deterministic_sandbox_id t))
          last_activity := ainsert emptyState.last_activity
            (deterministic_sandbox_id t) now
          thread_sandboxes := ainsert emptyState.thread_sandboxes t
            (deterministic_sandbox_id t)
          persisted := ainsert emptyState.persisted t
            (b.create (some t) (deterministic_sandbox_id t)) }
        t (deterministic_sandbox_id t) := by
      refine ⟨alookup_ainsert_self _ _ _, ?_⟩
      rw [alookup_ainsert_self]
      rfl
    obtain ⟨sN, hrep, -⟩ :=
      acquireRep_cached b now uuid t (deterministic_sandbox_id t) ht n _ hc
    refine ⟨sN, ?_, rfl⟩
    simp [acquireRep, hfirst, hrep, List.replicate_succ]
  · intro p info d hp hd hid
    by_cases hurl : d.sandbox_url = info.sandbox_url
    · refine ⟨⟨ainsert [] d.sandbox_id ⟨d.sandbox_id, d.sandbox_url⟩,
               ainsert [] d.sandbox_id d,
               ainsert [] t d.sandbox_id,
               ainsert [] d.sandbox_id now,
               p⟩,
              [Ev.discoverB info.sandbox_id], ?_, rfl⟩
      unfold acquire acquire_body try_recover
      simp [truthy, ht, alookup_nil, hp, hd, hurl, hid]
    · refine ⟨⟨ainsert [] d.sandbox_id ⟨d.sandbox_id, d.sandbox_url⟩,
               ainsert [] d.sandbox_id d,
               ainsert [] t d.sandbox_id,
               ainsert [] d.sandbox_id now,
               ainsert p t d⟩,
              [Ev.discoverB info.sandbox_id, Ev.saveS t d], ?_, rfl⟩
      unfold acquire acquire_body try_recover
      simp [truthy, ht, alookup_nil, hp, hd, hurl, hid]

/-- C1 witness: two consecutive `acquire("abc123")` calls against an
always-ready backend both return `6ca13d52`. -/
theorem C1_witness :
    (acquireRep demoBackend 0 "uuid-1234" "abc123" 2 emptyState).1 =
      List.replicate 2 (Except.ok "6ca13d52") := by
  obtain ⟨sN, hEq, -⟩ :=
    (C1_repeat_acquire_single_create demoBackend 0 "uuid-1234" "abc123"
      (by decide)).1 rfl 1
  have h1 := congrArg Prod.fst hEq
  have hid : deterministic_sandbox_id "abc123" = "6ca13d52" := by decide
  rw [hid] at h1
  exact h1

/-- C8: the thread-bound sandbox id that `acquire` computes and returns is
the first 8 hex characters of the SHA-256 hex digest of the UTF-8 encoding
of the thread id (concretely `6ca13d52` for `"abc123"`), while an anonymous
acquire uses the first 8 characters of the freshly drawn UUID string. -/
theorem C8_id_derivation (b : Backend) (now : Nat) (uuid : String) (t : String)
    (ht : t ≠ "")
    (hr1 : b.ready (b.create (some t) (deterministic_sandbox_id t)).sandbox_url
      = true)
    (hr2 : b.ready (b.create none (uuid.take 8)).sandbox_url = true) :
    (acquire b now uuid emptyState (some t)).1 =
      .ok ((Sha256.hexdigest (utf8Encode t)).take 8) ∧
    (acquire b now uuid emptyState none).1 = .ok (uuid.take 8) ∧
    deterministic_sandbox_id "abc123" = "6ca13d52" := by
  refine ⟨?_, ?_, by decide⟩
  · exact congrArg Prod.fst (acquire_fresh b now uuid t emptyState ht rfl rfl hr1)
  · unfold acquire acquire_body create_sandbox
    simp [truthy, hr2]

/-- C8 witness: the thread-bound id for `"abc123"` and an anonymous id at
a concrete UUID string. -/
theorem C8_witness :
    (acquire demoBackend 0 "12345678-aaaa" emptyState (some "abc123")).1 =
      Except.ok "6ca13d52" ∧
    (acquire demoBackend 0 "12345678-aaaa" emptyState none).1 =
      Except.ok "12345678" := by
  obtain ⟨h1, h2, -⟩ := C8_id_derivation demoBackend 0 "12345678-aaaa" "abc123"
    (by decide) rfl rfl
  constructor
  · rw [h1]
    exact congrArg Except.ok (by decide)
  · rw [h2]
    exact congrArg Except.ok (by decide)

/-- C9 witness: a file whose contents fail to parse as JSON loads as
absent rather than raising. -/
theorem C9_witness :
    (∃ r, store_load (fun _ => Except.error ()) (FileRead.content "not json")
      = .ok r) ∧
    store_load (fun _ => Except.error ()) (FileRead.content "not json")
      = .ok none :=
  ⟨(C9_store_load_total (fun _ => Except.error ())
      (FileRead.content "not json")).1, rfl⟩

end DeerFlow
